import Mathlib

/-
Shallow embedding of the Lehmer pseudorandom-number-generator repository
(pure-Python sources) and proofs about it.

Python integers are arbitrary-precision, so they are embedded as `Int`.
For a positive divisor, Python's `//` and `%` coincide with Lean's `Int`
division and modulus (Euclidean / floor agree there), which is exactly the
situation in all the code below (every divisor is a positive constant or a
positive length).  Python `/` on ints (true division) is embedded as exact
division in `ℚ`.  Lists are embedded as `List Int`.
-/

/- ===== src/lehmer/generator.py : class Lehmer ===================== -/

/-- Modulus of the `Lehmer` class in `generator.py`: the Mersenne prime
`2**31 - 1` (property `m`). -/
def Lehmer.m : Int := 2 ^ 31 - 1

/-- Multiplier of the `Lehmer` class in `generator.py` (property `a`). -/
def Lehmer.a : Int := 48271

/-- State of the `Lehmer` class: `__init__` stores the supplied seed `z`
unmodified (`self.z = z`, no reduction, no validation). -/
def Lehmer.init (z : Int) : Int := z

/-- The gamma value computed inside `Lehmer.y`:
`gamma = a * (z % q) - r * (z // q)` with `q = m // a`, `r = m % a`. -/
def Lehmer.gammaVal (z : Int) : Int :=
  let q := Lehmer.m / Lehmer.a
  let r := Lehmer.m % Lehmer.a
  Lehmer.a * (z % q) - r * (z / q)

/-- `Lehmer.y`: returns `gamma` when nonnegative, else `gamma + m`. -/
def Lehmer.y (z : Int) : Int :=
  let gamma := Lehmer.gammaVal z
  if 0 ≤ gamma then gamma else gamma + Lehmer.m

/-- `Lehmer.d`: the delta value `(z // q) - (a * z // m)` with `q = m // a`. -/
def Lehmer.d (z : Int) : Int :=
  let q := Lehmer.m / Lehmer.a
  z / q - Lehmer.a * z / Lehmer.m

/-- `Lehmer.normalize`: `self.z / self.m` (Python true division, exact in ℚ). -/
def Lehmer.normalize (z : Int) : ℚ := (z : ℚ) / (Lehmer.m : ℚ)

/-- `Lehmer.scale`: `abs(self.a * self.z)`. -/
def Lehmer.scale (z : Int) : Int := |Lehmer.a * z|

/-- `Lehmer.generate`: the direct step `self.scale() % self.m`. -/
def Lehmer.generate (z : Int) : Int := Lehmer.scale z % Lehmer.m

/- ===== src/lehmer/gamma.py ======================================== -/

/-- Module-level constant `MODULUS` of `gamma.py`. -/
def MODULUS : Int := 2147483647

/-- Module-level constant `MULTIPLIER` of `gamma.py`. -/
def MULTIPLIER : Int := 48271

/-- `gamma(z, a, m)` from `gamma.py`:
`(a * (z % q) - r * (z // q)) % m` with `q = m // a`, `r = m % a`.
Python `%` on a positive modulus yields a nonnegative result, as does
Lean's `Int` `%`. -/
def gamma (z a m : Int) : Int :=
  let q := m / a
  let r := m % a
  (a * (z % q) - r * (z / q)) % m

/-- `generate_batch(seed, batch_size)` from `gamma.py`: starting at `seed`,
repeatedly set `z = gamma(z, MULTIPLIER, MODULUS)` and append `z`,
`batch_size` times. -/
def generate_batch (seed : Int) : Nat → List Int
  | 0 => []
  | n + 1 =>
    let z := gamma seed MULTIPLIER MODULUS
    z :: generate_batch z n

/-- `process_batches(initial_seed, num_batches, batch_size)` from `gamma.py`:
each batch is chained — the last seed of one batch is the input seed of the
next.  (Python reads `batch[-1]`; a batch produced with a positive
`batch_size` is nonempty, so the default value of `getLastD` is never
relevant in the source's use.) -/
def process_batches (initial_seed : Int) : Nat → Nat → List Int
  | 0, _ => []
  | n + 1, batch_size =>
    let batch := generate_batch initial_seed batch_size
    batch ++ process_batches (batch.getLastD initial_seed) n batch_size

/-- `threaded_batch_processing(seed, total_seeds, batch_size)` from
`gamma.py`: `num_batches = total_seeds // batch_size`; the thread pool maps
`generate_batch` over the list `[seed] * num_batches` (every batch gets the
same starting seed), and the results are flattened in order. -/
def threaded_batch_processing (seed : Int) (total_seeds batch_size : Nat) :
    List Int :=
  let num_batches := total_seeds / batch_size
  ((List.replicate num_batches seed).map
    (fun s => generate_batch s batch_size)).flatten

/-- n-fold iteration of the congruential step as computed by `gamma`;
this is the update `z = gamma(z, a, m)` performed by the loop in
`generate_batch`, with the multiplier and modulus as parameters. -/
def gammaIterate (a m z : Int) (n : Nat) : Int :=
  Nat.rec z (fun _ w => gamma w a m) n

/- ===== src/examples/lehmer.py ===================================== -/

/-- Module-level constant `MODULUS` of `examples/lehmer.py`. -/
def Examples.MODULUS : Int := 2147483647

/-- Module-level constant `MULTIPLIER` of `examples/lehmer.py`. -/
def Examples.MULTIPLIER : Int := 48271

/-- `lehmer_generate_modulo(seed)`: `(MULTIPLIER * seed) % MODULUS`. -/
def Examples.lehmer_generate_modulo (seed : Int) : Int :=
  (Examples.MULTIPLIER * seed) % Examples.MODULUS

/-- `lehmer_seed_normalize(seed)`: `seed / MODULUS` (true division). -/
def Examples.lehmer_seed_normalize (seed : Int) : ℚ :=
  (seed : ℚ) / (Examples.MODULUS : ℚ)

/-- n-fold iteration of `lehmer_generate_modulo`, i.e. the loop
`seed = lehmer_generate_modulo(seed)` in the script body. -/
def Examples.lehmer_iterate (seed : Int) (n : Nat) : Int :=
  Nat.rec seed (fun _ w => Examples.lehmer_generate_modulo w) n

/- ===== src/lehmer_proof_of_concept.py : class Lehmer ============== -/

/-- Class constant `MODULUS = 2**31 - 1` of the proof-of-concept `Lehmer`. -/
def ProofOfConcept.MODULUS : Int := 2 ^ 31 - 1

/-- Class constant `MULTIPLIER = 48271` of the proof-of-concept `Lehmer`. -/
def ProofOfConcept.MULTIPLIER : Int := 48271

/-- `Lehmer.lehmer_generator` from `lehmer_proof_of_concept.py`:
`self.seed = (self.MULTIPLIER * self.seed) % self.MODULUS`, returning the
new seed.  The state is the single field `seed`. -/
def ProofOfConcept.lehmer_generator (seed : Int) : Int :=
  (ProofOfConcept.MULTIPLIER * seed) % ProofOfConcept.MODULUS

/- ===== src/lehmer/cli.py : class LehmerState ====================== -/

/-- State of the `LehmerState` class in `cli.py`.  `position` is stored as a
`Nat`: every write to `self.position` in the source is `0` or the result of
a Python `%` by the positive `self.length`, hence nonnegative. -/
structure LehmerState where
  seed : Int
  position : Nat
  length : Nat
  sequence : List Int
deriving DecidableEq, Repr

/-- Class constant `MODULUS` of `LehmerState`. -/
def LehmerState.MODULUS : Int := 2147483647

/-- Class constant `MULTIPLIER` of `LehmerState`. -/
def LehmerState.MULTIPLIER : Int := 48271

/-- The list written by `LehmerState.generate_sequence`:
`sequence[0] = (MULTIPLIER * x) % MODULUS` and
`sequence[i] = (MULTIPLIER * sequence[i-1]) % MODULUS`, as a recursive
construction of the `n`-element list starting from `x`. -/
def seqFrom (x : Int) : Nat → List Int
  | 0 => []
  | n + 1 =>
    let y := (LehmerState.MULTIPLIER * x) % LehmerState.MODULUS
    y :: seqFrom y n

/-- `LehmerState.generate_sequence`: regenerates `self.sequence` from
`self.seed`, keeping its length `self.length`. -/
def LehmerState.generate_sequence (s : LehmerState) : LehmerState :=
  { s with sequence := seqFrom s.seed s.length }

/-- `LehmerState.__init__(seed, length)`: `self.seed = seed % MODULUS`,
`self.position = 0`, `self.length = max(1, length)`, `self.sequence`
allocated and then filled by `generate_sequence`. -/
def LehmerState.init (seed length : Int) : LehmerState :=
  LehmerState.generate_sequence
    { seed := seed % LehmerState.MODULUS
      position := 0
      length := (max 1 length).toNat
      sequence := List.replicate (max 1 length).toNat 0 }

/-- `LehmerState.set_initial_seed(seed)`: `self.seed = seed % MODULUS`,
`self.position = 0`, regenerate. -/
def LehmerState.set_initial_seed (s : LehmerState) (seed : Int) : LehmerState :=
  LehmerState.generate_sequence
    { s with seed := seed % LehmerState.MODULUS, position := 0 }

/-- `LehmerState.select(position)`: `self.position = position % self.length`.
The index is an arbitrary Python int; `%` by the positive length gives a
nonnegative result, stored as a `Nat`. -/
def LehmerState.select (s : LehmerState) (position : Int) : LehmerState :=
  { s with position := (position % (s.length : Int)).toNat }

/-- `LehmerState.set_previous_seed`:
`self.position = (self.position - 1) % self.length`. -/
def LehmerState.set_previous_seed (s : LehmerState) : LehmerState :=
  { s with position := (((s.position : Int) - 1) % (s.length : Int)).toNat }

/-- `LehmerState.set_next_seed`:
`self.position = (self.position + 1) % self.length`. -/
def LehmerState.set_next_seed (s : LehmerState) : LehmerState :=
  { s with position := (s.position + 1) % s.length }

/-- `LehmerState.get_current_seed`: first `self.position %= self.length`,
then return `self.sequence[self.position]`.  The method both mutates the
state and returns a value, so it is embedded as a state-and-value pair.
List indexing is embedded with `getD`; under the class invariant the
position is in bounds, so the default is never read. -/
def LehmerState.get_current_seed (s : LehmerState) : LehmerState × Int :=
  let s1 := { s with position := s.position % s.length }
  (s1, s1.sequence.getD s1.position 0)

/-- `LehmerState.get_next_seed`: `set_next_seed` then `get_current_seed`. -/
def LehmerState.get_next_seed (s : LehmerState) : LehmerState × Int :=
  LehmerState.get_current_seed (LehmerState.set_next_seed s)

/-- `LehmerState.normalize`: `self.get_current_seed() / self.MODULUS`
(true division, exact in ℚ); calling it also performs
`get_current_seed`'s state update. -/
def LehmerState.normalize (s : LehmerState) : LehmerState × ℚ :=
  let p := LehmerState.get_current_seed s
  (p.1, (p.2 : ℚ) / (LehmerState.MODULUS : ℚ))

/-- `LehmerState.modulo`: compute
`next_seed = (MULTIPLIER * self.get_current_seed()) % MODULUS`, store it at
`self.sequence[self.position]`, and return it. -/
def LehmerState.modulo (s : LehmerState) : LehmerState × Int :=
  let p := LehmerState.get_current_seed s
  let next_seed := (LehmerState.MULTIPLIER * p.2) % LehmerState.MODULUS
  ({ p.1 with sequence := p.1.sequence.set p.1.position next_seed }, next_seed)

/-- The states of `LehmerState` reachable through the class interface: any
constructed state, closed under every method of the class. -/
inductive LehmerState.Reachable : LehmerState → Prop
  | init : ∀ seed length, LehmerState.Reachable (LehmerState.init seed length)
  | generate_sequence : ∀ s, LehmerState.Reachable s →
      LehmerState.Reachable s.generate_sequence
  | set_initial_seed : ∀ s seed, LehmerState.Reachable s →
      LehmerState.Reachable (s.set_initial_seed seed)
  | select : ∀ s p, LehmerState.Reachable s →
      LehmerState.Reachable (s.select p)
  | set_previous_seed : ∀ s, LehmerState.Reachable s →
      LehmerState.Reachable s.set_previous_seed
  | set_next_seed : ∀ s, LehmerState.Reachable s →
      LehmerState.Reachable s.set_next_seed
  | get_current_seed : ∀ s, LehmerState.Reachable s →
      LehmerState.Reachable s.get_current_seed.1
  | get_next_seed : ∀ s, LehmerState.Reachable s →
      LehmerState.Reachable s.get_next_seed.1
  | normalize : ∀ s, LehmerState.Reachable s →
      LehmerState.Reachable s.normalize.1
  | modulo : ∀ s, LehmerState.Reachable s →
      LehmerState.Reachable s.modulo.1

/-- Structural invariant of `LehmerState`: the length is at least 1, the
stored list really has that length, and every stored value lies in
`[0, MODULUS)`. -/
def LehmerState.WF (s : LehmerState) : Prop :=
  1 ≤ s.length ∧ s.sequence.length = s.length ∧
    ∀ x ∈ s.sequence, 0 ≤ x ∧ x < LehmerState.MODULUS

/- =====================  theorems  ================================= -/

lemma seqFrom_length (x : Int) (n : Nat) : (seqFrom x n).length = n := by
  induction n generalizing x with
  | zero => rfl
  | succ n ih => simp [seqFrom, ih]

lemma seqFrom_mem (x : Int) (n : Nat) :
    ∀ y ∈ seqFrom x n, 0 ≤ y ∧ y < LehmerState.MODULUS := by
  induction n generalizing x with
  | zero => intro y hy; simp [seqFrom] at hy
  | succ n ih =>
    intro y hy
    simp only [seqFrom, List.mem_cons] at hy
    rcases hy with hy | hy
    · subst hy
      refine ⟨Int.emod_nonneg _ (by norm_num [LehmerState.MODULUS]), ?_⟩
      exact Int.emod_lt_of_pos _ (by norm_num [LehmerState.MODULUS])
    · exact ih _ y hy

lemma WF_generate_sequence (s : LehmerState) (h : s.WF) :
    s.generate_sequence.WF := by
  obtain ⟨h1, _, _⟩ := h
  exact ⟨h1, seqFrom_length s.seed s.length, seqFrom_mem s.seed s.length⟩

lemma WF_init (seed length : Int) : (LehmerState.init seed length).WF := by
  apply WF_generate_sequence
  refine ⟨?_, by simp, ?_⟩
  · simp [Int.toNat_le_toNat]
  · intro x hx
    rw [List.eq_of_mem_replicate hx]
    norm_num [LehmerState.MODULUS]

lemma WF_set_initial_seed (s : LehmerState) (seed : Int) (h : s.WF) :
    (s.set_initial_seed seed).WF := by
  apply WF_generate_sequence
  exact ⟨h.1, h.2.1, h.2.2⟩

lemma WF_select (s : LehmerState) (p : Int) (h : s.WF) : (s.select p).WF := h

lemma WF_set_previous_seed (s : LehmerState) (h : s.WF) :
    s.set_previous_seed.WF := h

lemma WF_set_next_seed (s : LehmerState) (h : s.WF) : s.set_next_seed.WF := h

lemma WF_get_current_seed (s : LehmerState) (h : s.WF) :
    s.get_current_seed.1.WF := h

lemma WF_modulo (s : LehmerState) (h : s.WF) : s.modulo.1.WF := by
  obtain ⟨h1, h2, h3⟩ := h
  refine ⟨h1, ?_, ?_⟩
  · simpa [LehmerState.modulo, LehmerState.get_current_seed] using h2
  · intro x hx
    simp only [LehmerState.modulo, LehmerState.get_current_seed] at hx
    rcases List.mem_or_eq_of_mem_set hx with hmem | heq
    · exact h3 x hmem
    · subst heq
      refine ⟨Int.emod_nonneg _ (by norm_num [LehmerState.MODULUS]), ?_⟩
      exact Int.emod_lt_of_pos _ (by norm_num [LehmerState.MODULUS])

lemma reachable_WF (s : LehmerState) (h : s.Reachable) : s.WF := by
  induction h with
  | init seed length => exact WF_init seed length
  | generate_sequence s _ ih => exact WF_generate_sequence s ih
  | set_initial_seed s seed _ ih => exact WF_set_initial_seed s seed ih
  | select s p _ ih => exact WF_select s p ih
  | set_previous_seed s _ ih => exact WF_set_previous_seed s ih
  | set_next_seed s _ ih => exact WF_set_next_seed s ih
  | get_current_seed s _ ih => exact WF_get_current_seed s ih
  | get_next_seed s _ ih =>
    exact WF_get_current_seed _ (WF_set_next_seed s ih)
  | normalize s _ ih => exact WF_get_current_seed s ih
  | modulo s _ ih => exact WF_modulo s ih

lemma current_seed_bounds (s : LehmerState) (h : s.WF) :
    0 ≤ s.get_current_seed.2 ∧ s.get_current_seed.2 < LehmerState.MODULUS := by
  obtain ⟨h1, h2, h3⟩ := h
  have hlt : s.position % s.length < s.sequence.length := by
    rw [h2]
    exact Nat.mod_lt _ (by omega)
  have hmem : s.sequence.getD (s.position % s.length) 0 ∈ s.sequence := by
    rw [List.getD_eq_getElem s.sequence 0 hlt]
    exact List.getElem_mem hlt
  exact h3 _ hmem

/-- C1: Schrage step correctness.  For every integer `z` in `[0, m-1]` with
`m = 2^31 - 1` and `a = 48271`, the overflow-safe step of `Lehmer.y`
(gamma plus conditional `+ m`), the reduced form in `gamma.py`, and the
direct step `Lehmer.generate` all return exactly `(a * z) % m` computed
with unbounded precision. -/
theorem schrage_step_correct (z : Int) (h0 : 0 ≤ z) (h1 : z < Lehmer.m) :
    Lehmer.y z = (Lehmer.a * z) % Lehmer.m ∧
    gamma z Lehmer.a Lehmer.m = (Lehmer.a * z) % Lehmer.m ∧
    Lehmer.generate z = (Lehmer.a * z) % Lehmer.m := by
  have hm : Lehmer.m = 2147483647 := by norm_num [Lehmer.m]
  rw [hm] at h1
  have habs : |Lehmer.a * z| = Lehmer.a * z := by
    apply abs_of_nonneg
    have ha : (0 : Int) ≤ Lehmer.a := by norm_num [Lehmer.a]
    exact mul_nonneg ha h0
  refine ⟨?_, ?_, ?_⟩
  · simp only [Lehmer.y, Lehmer.gammaVal, hm, Lehmer.a]
    norm_num
    split <;> omega
  · simp only [gamma, hm, Lehmer.a]
    norm_num
    omega
  · simp only [Lehmer.generate, Lehmer.scale, habs, hm]

/-- Witness for C1 at the example seed `z = 123456789`. -/
theorem schrage_step_correct_witness :
    Lehmer.y 123456789 = (Lehmer.a * 123456789) % Lehmer.m ∧
    gamma 123456789 Lehmer.a Lehmer.m = (Lehmer.a * 123456789) % Lehmer.m ∧
    Lehmer.generate 123456789 = (Lehmer.a * 123456789) % Lehmer.m :=
  schrage_step_correct 123456789 (by decide) (by decide)

/-- C10: for every `z` in `[0, m-1]` with `m = 2^31 - 1` and `a = 48271`,
the delta helper `Lehmer.d` returns either 0 or 1, and it returns 0 exactly
when the gamma value computed in `Lehmer.y` is nonnegative. -/
theorem delta_zero_or_one (z : Int) (h0 : 0 ≤ z) (h1 : z < Lehmer.m) :
    (Lehmer.d z = 0 ∨ Lehmer.d z = 1) ∧
    (Lehmer.d z = 0 ↔ 0 ≤ Lehmer.gammaVal z) := by
  have hm : Lehmer.m = 2147483647 := by norm_num [Lehmer.m]
  rw [hm] at h1
  simp only [Lehmer.d, Lehmer.gammaVal, hm, Lehmer.a]
  norm_num
  omega

/-- Witness for C10 at the seed `z = 714025`. -/
theorem delta_zero_or_one_witness :
    (Lehmer.d 714025 = 0 ∨ Lehmer.d 714025 = 1) ∧
    (Lehmer.d 714025 = 0 ↔ 0 ≤ Lehmer.gammaVal 714025) :=
  delta_zero_or_one 714025 (by decide) (by decide)

/-- C5: selection wrap-around.  `select(index)` sets the selected position
to `index mod length` and always leaves it in range; for every integer `k`
and every `length ≥ 1`, `select(k)` and `select(k + length)` select the
same position. -/
theorem select_wrap_around (s : LehmerState) (k : Int) (h : 1 ≤ s.length) :
    (s.select k).position = (s.select (k + (s.length : Int))).position ∧
    (s.select k).position = ((k % (s.length : Int)).toNat) ∧
    (s.select k).position < s.length := by
  have hpos : (0 : Int) < (s.length : Int) := by exact_mod_cast h
  have heq : (k + (s.length : Int)) % (s.length : Int) = k % (s.length : Int) := by
    have h2 : k + (s.length : Int) = k + (s.length : Int) * 1 := by ring
    rw [h2, Int.add_mul_emod_self_left]
  have hlb : 0 ≤ k % (s.length : Int) := Int.emod_nonneg k (by omega)
  have hub : k % (s.length : Int) < (s.length : Int) := Int.emod_lt_of_pos k hpos
  refine ⟨?_, rfl, ?_⟩
  · simp only [LehmerState.select, heq]
  · simp only [LehmerState.select]
    omega

/-- Witness for C5: on a 3-stream table, `select(-4)` and `select(-1)`
both select position 2, which is in range. -/
theorem select_wrap_around_witness :
    ((LehmerState.mk 1 0 3 [0, 0, 0]).select (-4)).position
      = ((LehmerState.mk 1 0 3 [0, 0, 0]).select (-4 + (3 : Int))).position ∧
    ((LehmerState.mk 1 0 3 [0, 0, 0]).select (-4)).position
      = (((-4 : Int) % (3 : Int)).toNat) ∧
    ((LehmerState.mk 1 0 3 [0, 0, 0]).select (-4)).position < 3 :=
  select_wrap_around (LehmerState.mk 1 0 3 [0, 0, 0]) (-4) (by decide)

/-- C6: cross-stream isolation.  Under the class invariant (stored list has
the declared length and the selected position is in range), advancing the
selected slot via `LehmerState.modulo` writes only `sequence[position]`,
leaves the position, the length and every other entry unchanged, and the
new sequence is exactly the old one with position `i` overwritten by the
stepped value. -/
theorem modulo_frame (s : LehmerState)
    (hlen : s.sequence.length = s.length) (hpos : s.position < s.length) :
    s.modulo.1.position = s.position ∧
    s.modulo.1.length = s.length ∧
    s.modulo.1.seed = s.seed ∧
    s.modulo.1.sequence = s.sequence.set s.position
      ((LehmerState.MULTIPLIER * s.sequence.getD s.position 0)
        % LehmerState.MODULUS) ∧
    ∀ j : Nat, j ≠ s.position → s.modulo.1.sequence[j]? = s.sequence[j]? := by
  have hmod : s.position % s.length = s.position := Nat.mod_eq_of_lt hpos
  refine ⟨?_, rfl, rfl, ?_, ?_⟩
  · simp [LehmerState.modulo, LehmerState.get_current_seed, hmod]
  · simp [LehmerState.modulo, LehmerState.get_current_seed, hmod]
  · intro j hj
    simp only [LehmerState.modulo, LehmerState.get_current_seed, hmod]
    exact List.getElem?_set_ne (fun h => hj h.symm)

/-- Witness for C6 on the 2-stream state with entries `[5, 6]` and selected
position 0: the entry at position 1 is untouched. -/
theorem modulo_frame_witness :
    (LehmerState.mk 1 0 2 [5, 6]).modulo.1.position = 0 ∧
    (LehmerState.mk 1 0 2 [5, 6]).modulo.1.sequence[1]?
      = ([5, 6] : List Int)[1]? := by
  have h := modulo_frame (LehmerState.mk 1 0 2 [5, 6]) (by decide) (by decide)
  exact ⟨h.1, h.2.2.2.2 1 (by decide)⟩

/-- C7 counterexample: constructing a stream with seed 0 does NOT fail.
`LehmerState.__init__` (embedded as the total function `LehmerState.init`,
faithful to the source, which has no raise statement and no `SeedError`
anywhere) accepts the zero seed and silently produces the degenerate
all-zero one-element sequence; and `Lehmer.__init__` in `generator.py`
performs no coercion at all, storing a negative seed unchanged. -/
theorem seed_zero_accepted :
    (LehmerState.init 0 1).seed = 0 ∧
    (LehmerState.init 0 1).sequence = [0] ∧
    Lehmer.init (-5) = -5 := by
  refine ⟨rfl, ?_, rfl⟩
  decide

/-- C7 amended: `LehmerState.__init__` does coerce the supplied seed into
`[0, m)` by the Python `%` (which also handles negative inputs), but it
never rejects a coerced seed of 0 — construction always succeeds — and
`Lehmer.__init__` stores the seed without any coercion. -/
theorem seed_coercion_without_rejection :
    (∀ seed length : Int,
      (LehmerState.init seed length).seed = seed % LehmerState.MODULUS ∧
      0 ≤ (LehmerState.init seed length).seed ∧
      (LehmerState.init seed length).seed < LehmerState.MODULUS) ∧
    (LehmerState.init 0 1).sequence = [0] ∧
    (∀ z : Int, Lehmer.init z = z) := by
  refine ⟨?_, by decide, fun z => rfl⟩
  intro seed length
  refine ⟨rfl, Int.emod_nonneg _ (by norm_num [LehmerState.MODULUS]), ?_⟩
  exact Int.emod_lt_of_pos _ (by norm_num [LehmerState.MODULUS])

/-- C8 counterexample: no configuration validation happens.  With the pair
`(m, a) = (2147483647, 2147483646)` the Schrage precondition fails
(`r = 1 ≥ q = 1`), yet `gamma` (embedded as total, faithful to the source,
which raises no `ConfigurationError` and contains no validation) simply
returns a value; likewise for the out-of-range multiplier `a = m`. -/
theorem configuration_never_validated :
    (2147483647 : Int) % 2147483646 ≥ (2147483647 : Int) / 2147483646 ∧
    gamma 5 2147483646 2147483647 = 2147483642 ∧
    gamma 5 2147483647 2147483647 = 0 := by
  decide

/-- C8 amended: the code computes `q = m div a` and `r = m mod a` (inside
`gamma`) but performs no validation and raises nothing: `gamma` returns a
value even when `r ≥ q` or `a ≥ m`.  `LehmerState.__init__` likewise checks
nothing; its fixed built-in parameters `m = 2^31 - 1`, `a = 48271` do
satisfy the Schrage precondition `r < q` (as do `m = 2^31 - 1`,
`a = 16807`), so the unchecked precondition holds for every configuration
the code actually constructs. -/
theorem builtin_parameters_satisfy_schrage :
    LehmerState.MODULUS % LehmerState.MULTIPLIER
      < LehmerState.MODULUS / LehmerState.MULTIPLIER ∧
    MODULUS % (16807 : Int) < MODULUS / (16807 : Int) ∧
    gamma 5 2147483646 2147483647 = 2147483642 := by
  decide

lemma step_stays_in_range (z : Int) (h1 : 1 ≤ z) (h2 : z < 2147483647) :
    1 ≤ (48271 * z) % 2147483647 ∧ (48271 * z) % 2147483647 < 2147483647 := by
  have hub : (48271 * z) % 2147483647 < 2147483647 :=
    Int.emod_lt_of_pos _ (by norm_num)
  have hlb : 0 ≤ (48271 * z) % 2147483647 :=
    Int.emod_nonneg _ (by norm_num)
  refine ⟨?_, hub⟩
  rcases eq_or_lt_of_le hlb with hzero | hpos
  · exfalso
    have hdvd : (2147483647 : Int) ∣ 48271 * z :=
      Int.dvd_of_emod_eq_zero hzero.symm
    have hc : IsCoprime (2147483647 : Int) 48271 := by
      rw [Int.isCoprime_iff_gcd_eq_one]
      decide
    have hz : (2147483647 : Int) ∣ z := hc.dvd_of_dvd_mul_left hdvd
    have := Int.le_of_dvd (by omega) hz
    omega
  · omega

/-- C3: nonzero-seed range invariant with `m = 2^31 - 1`, `a = 48271`.
One step of the generator (`lehmer_generate_modulo` in `examples/lehmer.py`
and `Lehmer.lehmer_generator` in `lehmer_proof_of_concept.py`) maps every
seed in `[1, m-1]` back into `[1, m-1]`, and consequently every output of
repeated stepping from such a seed lies in `[1, m-1]`: the seed never
becomes 0. -/
theorem step_preserves_nonzero_range (z : Int) (h1 : 1 ≤ z)
    (h2 : z < Examples.MODULUS) :
    (1 ≤ Examples.lehmer_generate_modulo z ∧
      Examples.lehmer_generate_modulo z < Examples.MODULUS) ∧
    (1 ≤ ProofOfConcept.lehmer_generator z ∧
      ProofOfConcept.lehmer_generator z < ProofOfConcept.MODULUS) ∧
    (∀ n : Nat, 1 ≤ Examples.lehmer_iterate z n ∧
      Examples.lehmer_iterate z n < Examples.MODULUS) := by
  have hm : Examples.MODULUS = 2147483647 := rfl
  have hmp : ProofOfConcept.MODULUS = 2147483647 := by
    norm_num [ProofOfConcept.MODULUS]
  rw [hm] at h2
  have hstep := step_stays_in_range z h1 h2
  refine ⟨?_, ?_, ?_⟩
  · simpa [Examples.lehmer_generate_modulo, Examples.MODULUS,
      Examples.MULTIPLIER] using hstep
  · simpa [ProofOfConcept.lehmer_generator, hmp,
      ProofOfConcept.MULTIPLIER] using hstep
  · intro n
    induction n with
    | zero =>
      simpa [Examples.lehmer_iterate, Examples.MODULUS] using ⟨h1, h2⟩
    | succ n ih =>
      have hn : Examples.lehmer_iterate z (n + 1)
          = Examples.lehmer_generate_modulo (Examples.lehmer_iterate z n) :=
        rfl
      rw [hn]
      have := step_stays_in_range (Examples.lehmer_iterate z n) ih.1
        (by simpa [Examples.MODULUS] using ih.2)
      simpa [Examples.lehmer_generate_modulo, Examples.MODULUS,
        Examples.MULTIPLIER] using this

/-- Witness for C3 at seed 1 (three iterated steps checked in range). -/
theorem step_preserves_nonzero_range_witness :
    (1 ≤ Examples.lehmer_generate_modulo 1 ∧
      Examples.lehmer_generate_modulo 1 < Examples.MODULUS) ∧
    (1 ≤ ProofOfConcept.lehmer_generator 1 ∧
      ProofOfConcept.lehmer_generator 1 < ProofOfConcept.MODULUS) ∧
    (1 ≤ Examples.lehmer_iterate 1 3 ∧
      Examples.lehmer_iterate 1 3 < Examples.MODULUS) := by
  have h := step_preserves_nonzero_range 1 (by decide) (by decide)
  exact ⟨h.1, h.2.1, h.2.2 3⟩

/-- C9: the thread-pool harness re-seeds every batch.  For every seed,
`total_seeds` and `batch_size`, `threaded_batch_processing` returns the
concatenation of `total_seeds div batch_size` identical copies of
`generate_batch(seed, batch_size)` — every batch restarts from the same
starting seed — and consequently it differs from `process_batches`, which
chains batches (shown at seed 1, 4 total seeds, batch size 2). -/
theorem threaded_batches_identical :
    (∀ (seed : Int) (total_seeds batch_size : Nat),
      threaded_batch_processing seed total_seeds batch_size
        = (List.replicate (total_seeds / batch_size)
            (generate_batch seed batch_size)).flatten) ∧
    threaded_batch_processing 1 4 2 ≠ process_batches 1 (4 / 2) 2 := by
  constructor
  · intro seed total_seeds batch_size
    simp [threaded_batch_processing, List.map_replicate]
  · decide

/-- C4 counterexample: `Lehmer.__init__` in `generator.py` stores the seed
without reduction, so the constructed state with seed `m = 2147483647` is a
reachable state of that class whose `normalize()` returns exactly 1.0. -/
theorem normalize_returns_one :
    Lehmer.normalize (Lehmer.init 2147483647) = 1 := by
  norm_num [Lehmer.normalize, Lehmer.init, Lehmer.m]

/-- C4 amended: `normalize()` returns current seed divided by `m` in
`[0.0, 1.0)` — never exactly 1.0 — for every reachable state of
`LehmerState` in `cli.py` (whose constructor reduces the seed and whose
stored entries are always reduced mod `m`), and for `Lehmer` in
`generator.py` whenever the current seed lies in `[0, m-1]`; the direct
step keeps the seed in `[0, m-1]`, but `Lehmer.__init__` itself does not
coerce an out-of-range seed, so the bound can fail at construction. -/
theorem normalize_in_unit_interval :
    (∀ s : LehmerState, s.Reachable →
      0 ≤ s.normalize.2 ∧ s.normalize.2 < 1) ∧
    (∀ z : Int, 0 ≤ z → z < Lehmer.m →
      0 ≤ Lehmer.normalize z ∧ Lehmer.normalize z < 1) ∧
    (∀ z : Int, 0 ≤ z → z < Lehmer.m →
      0 ≤ Lehmer.generate z ∧ Lehmer.generate z < Lehmer.m) := by
  refine ⟨?_, ?_, ?_⟩
  · intro s hs
    have hb := current_seed_bounds s (reachable_WF s hs)
    simp only [LehmerState.normalize]
    have hMq : (0 : ℚ) < ((LehmerState.MODULUS : Int) : ℚ) := by
      norm_num [LehmerState.MODULUS]
    constructor
    · apply div_nonneg _ (le_of_lt hMq)
      exact_mod_cast hb.1
    · rw [div_lt_one hMq]
      exact_mod_cast hb.2
  · intro z h0 h1
    simp only [Lehmer.normalize]
    have hMq : (0 : ℚ) < ((Lehmer.m : Int) : ℚ) := by norm_num [Lehmer.m]
    constructor
    · apply div_nonneg _ (le_of_lt hMq)
      exact_mod_cast h0
    · rw [div_lt_one hMq]
      exact_mod_cast h1
  · intro z h0 h1
    exact ⟨Int.emod_nonneg _ (by norm_num [Lehmer.m]),
      Int.emod_lt_of_pos _ (by norm_num [Lehmer.m])⟩

/-- Witness for C4 (amended) at the freshly constructed 2-stream state with
seed 1, and at the in-range `generator.py` seed 3. -/
theorem normalize_in_unit_interval_witness :
    (0 ≤ (LehmerState.init 1 2).normalize.2 ∧
      (LehmerState.init 1 2).normalize.2 < 1) ∧
    (0 ≤ Lehmer.normalize 3 ∧ Lehmer.normalize 3 < 1) :=
  ⟨normalize_in_unit_interval.1 _ (LehmerState.Reachable.init 1 2),
   normalize_in_unit_interval.2.1 3 (by decide) (by decide)⟩

lemma gammaIterate_succ_top (a m z : Int) (n : Nat) :
    gammaIterate a m z (n + 1) = gamma (gammaIterate a m z n) a m := rfl

lemma gammaIterate_add (a m z : Int) (n k : Nat) :
    gammaIterate a m z (n + k) = gammaIterate a m (gammaIterate a m z n) k := by
  induction k with
  | zero => rfl
  | succ k ih =>
    have h1 : n + (k + 1) = (n + k) + 1 := by omega
    rw [h1, gammaIterate_succ_top, ih, gammaIterate_succ_top]

lemma gammaIterate_chain (n k : Nat) {a m z v w : Int}
    (h1 : gammaIterate a m z n = v) (h2 : gammaIterate a m v k = w) :
    gammaIterate a m z (n + k) = w := by
  rw [gammaIterate_add, h1, h2]

lemma gammaIterate_succ_inner (a m z : Int) (n : Nat) :
    gammaIterate a m z (n + 1) = gammaIterate a m (gamma z a m) n := by
  induction n with
  | zero => rfl
  | succ n ih =>
    show gamma (gammaIterate a m z (n + 1)) a m
      = gamma (gammaIterate a m (gamma z a m) n) a m
    rw [ih]

lemma generate_batch_getLastD (z : Int) (n : Nat) :
    (generate_batch z n).getLastD z = gammaIterate MULTIPLIER MODULUS z n := by
  induction n generalizing z with
  | zero => rfl
  | succ n ih =>
    show (gamma z MULTIPLIER MODULUS
        :: generate_batch (gamma z MULTIPLIER MODULUS) n).getLastD z = _
    rw [List.getLastD_cons, ih]
    exact (gammaIterate_succ_inner MULTIPLIER MODULUS z n).symm

set_option maxRecDepth 10000 in
set_option maxHeartbeats 4000000 in
/-- C2: known-answer test.  Iterating the congruential step exactly as
`generate_batch` does (the loop `z = gamma(z, a, m)`, whose last batch
element is the iterated value) 10,000 times from seed 1 with
`m = 2^31 - 1` and `a = 16807` yields 1043618065. -/
theorem known_answer_after_10000_steps :
    (∀ (z : Int) (n : Nat),
      (generate_batch z n).getLastD z = gammaIterate MULTIPLIER MODULUS z n) ∧
    gammaIterate 16807 2147483647 1 10000 = 1043618065 := by
  refine ⟨fun z n => generate_batch_getLastD z n, ?_⟩
  have t1 : gammaIterate 16807 2147483647 1 100 = 892053144 := by decide
  have t2 : gammaIterate 16807 2147483647 1 200 = 1771024152 :=
    gammaIterate_chain 100 100 t1 (by decide)
  have t3 : gammaIterate 16807 2147483647 1 300 = 1706755176 :=
    gammaIterate_chain 200 100 t2 (by decide)
  have t4 : gammaIterate 16807 2147483647 1 400 = 463482574 :=
    gammaIterate_chain 300 100 t3 (by decide)
  have t5 : gammaIterate 16807 2147483647 1 500 = 1401494901 :=
    gammaIterate_chain 400 100 t4 (by decide)
  have t6 : gammaIterate 16807 2147483647 1 600 = 1356701299 :=
    gammaIterate_chain 500 100 t5 (by decide)
  have t7 : gammaIterate 16807 2147483647 1 700 = 1178402198 :=
    gammaIterate_chain 600 100 t6 (by decide)
  have t8 : gammaIterate 16807 2147483647 1 800 = 67439096 :=
    gammaIterate_chain 700 100 t7 (by decide)
  have t9 : gammaIterate 16807 2147483647 1 900 = 768094285 :=
    gammaIterate_chain 800 100 t8 (by decide)
  have t10 : gammaIterate 16807 2147483647 1 1000 = 522329230 :=
    gammaIterate_chain 900 100 t9 (by decide)
  have t11 : gammaIterate 16807 2147483647 1 1100 = 1502463517 :=
    gammaIterate_chain 1000 100 t10 (by decide)
  have t12 : gammaIterate 16807 2147483647 1 1200 = 129412463 :=
    gammaIterate_chain 1100 100 t11 (by decide)
  have t13 : gammaIterate 16807 2147483647 1 1300 = 684079392 :=
    gammaIterate_chain 1200 100 t12 (by decide)
  have t14 : gammaIterate 16807 2147483647 1 1400 = 135046736 :=
    gammaIterate_chain 1300 100 t13 (by decide)
  have t15 : gammaIterate 16807 2147483647 1 1500 = 2116197142 :=
    gammaIterate_chain 1400 100 t14 (by decide)
  have t16 : gammaIterate 16807 2147483647 1 1600 = 607367442 :=
    gammaIterate_chain 1500 100 t15 (by decide)
  have t17 : gammaIterate 16807 2147483647 1 1700 = 177376893 :=
    gammaIterate_chain 1600 100 t16 (by decide)
  have t18 : gammaIterate 16807 2147483647 1 1800 = 600633910 :=
    gammaIterate_chain 1700 100 t17 (by decide)
  have t19 : gammaIterate 16807 2147483647 1 1900 = 313517516 :=
    gammaIterate_chain 1800 100 t18 (by decide)
  have t20 : gammaIterate 16807 2147483647 1 2000 = 75099568 :=
    gammaIterate_chain 1900 100 t19 (by decide)
  have t21 : gammaIterate 16807 2147483647 1 2100 = 384910260 :=
    gammaIterate_chain 2000 100 t20 (by decide)
  have t22 : gammaIterate 16807 2147483647 1 2200 = 1038787537 :=
    gammaIterate_chain 2100 100 t21 (by decide)
  have t23 : gammaIterate 16807 2147483647 1 2300 = 1281232725 :=
    gammaIterate_chain 2200 100 t22 (by decide)
  have t24 : gammaIterate 16807 2147483647 1 2400 = 566900175 :=
    gammaIterate_chain 2300 100 t23 (by decide)
  have t25 : gammaIterate 16807 2147483647 1 2500 = 566390040 :=
    gammaIterate_chain 2400 100 t24 (by decide)
  have t26 : gammaIterate 16807 2147483647 1 2600 = 2000444076 :=
    gammaIterate_chain 2500 100 t25 (by decide)
  have t27 : gammaIterate 16807 2147483647 1 2700 = 1997341985 :=
    gammaIterate_chain 2600 100 t26 (by decide)
  have t28 : gammaIterate 16807 2147483647 1 2800 = 67989258 :=
    gammaIterate_chain 2700 100 t27 (by decide)
  have t29 : gammaIterate 16807 2147483647 1 2900 = 1482120115 :=
    gammaIterate_chain 2800 100 t28 (by decide)
  have t30 : gammaIterate 16807 2147483647 1 3000 = 873975955 :=
    gammaIterate_chain 2900 100 t29 (by decide)
  have t31 : gammaIterate 16807 2147483647 1 3100 = 1823983985 :=
    gammaIterate_chain 3000 100 t30 (by decide)
  have t32 : gammaIterate 16807 2147483647 1 3200 = 568528318 :=
    gammaIterate_chain 3100 100 t31 (by decide)
  have t33 : gammaIterate 16807 2147483647 1 3300 = 213315298 :=
    gammaIterate_chain 3200 100 t32 (by decide)
  have t34 : gammaIterate 16807 2147483647 1 3400 = 448952090 :=
    gammaIterate_chain 3300 100 t33 (by decide)
  have t35 : gammaIterate 16807 2147483647 1 3500 = 1798125800 :=
    gammaIterate_chain 3400 100 t34 (by decide)
  have t36 : gammaIterate 16807 2147483647 1 3600 = 960331775 :=
    gammaIterate_chain 3500 100 t35 (by decide)
  have t37 : gammaIterate 16807 2147483647 1 3700 = 1075795344 :=
    gammaIterate_chain 3600 100 t36 (by decide)
  have t38 : gammaIterate 16807 2147483647 1 3800 = 770245865 :=
    gammaIterate_chain 3700 100 t37 (by decide)
  have t39 : gammaIterate 16807 2147483647 1 3900 = 2126455912 :=
    gammaIterate_chain 3800 100 t38 (by decide)
  have t40 : gammaIterate 16807 2147483647 1 4000 = 221735936 :=
    gammaIterate_chain 3900 100 t39 (by decide)
  have t41 : gammaIterate 16807 2147483647 1 4100 = 1919784073 :=
    gammaIterate_chain 4000 100 t40 (by decide)
  have t42 : gammaIterate 16807 2147483647 1 4200 = 2129423510 :=
    gammaIterate_chain 4100 100 t41 (by decide)
  have t43 : gammaIterate 16807 2147483647 1 4300 = 716499620 :=
    gammaIterate_chain 4200 100 t42 (by decide)
  have t44 : gammaIterate 16807 2147483647 1 4400 = 450568932 :=
    gammaIterate_chain 4300 100 t43 (by decide)
  have t45 : gammaIterate 16807 2147483647 1 4500 = 640709732 :=
    gammaIterate_chain 4400 100 t44 (by decide)
  have t46 : gammaIterate 16807 2147483647 1 4600 = 1759971724 :=
    gammaIterate_chain 4500 100 t45 (by decide)
  have t47 : gammaIterate 16807 2147483647 1 4700 = 1534452537 :=
    gammaIterate_chain 4600 100 t46 (by decide)
  have t48 : gammaIterate 16807 2147483647 1 4800 = 1558634641 :=
    gammaIterate_chain 4700 100 t47 (by decide)
  have t49 : gammaIterate 16807 2147483647 1 4900 = 1118151565 :=
    gammaIterate_chain 4800 100 t48 (by decide)
  have t50 : gammaIterate 16807 2147483647 1 5000 = 1069865427 :=
    gammaIterate_chain 4900 100 t49 (by decide)
  have t51 : gammaIterate 16807 2147483647 1 5100 = 1645111449 :=
    gammaIterate_chain 5000 100 t50 (by decide)
  have t52 : gammaIterate 16807 2147483647 1 5200 = 2010101917 :=
    gammaIterate_chain 5100 100 t51 (by decide)
  have t53 : gammaIterate 16807 2147483647 1 5300 = 170871137 :=
    gammaIterate_chain 5200 100 t52 (by decide)
  have t54 : gammaIterate 16807 2147483647 1 5400 = 573474078 :=
    gammaIterate_chain 5300 100 t53 (by decide)
  have t55 : gammaIterate 16807 2147483647 1 5500 = 372074764 :=
    gammaIterate_chain 5400 100 t54 (by decide)
  have t56 : gammaIterate 16807 2147483647 1 5600 = 1196328125 :=
    gammaIterate_chain 5500 100 t55 (by decide)
  have t57 : gammaIterate 16807 2147483647 1 5700 = 1259287133 :=
    gammaIterate_chain 5600 100 t56 (by decide)
  have t58 : gammaIterate 16807 2147483647 1 5800 = 1098586334 :=
    gammaIterate_chain 5700 100 t57 (by decide)
  have t59 : gammaIterate 16807 2147483647 1 5900 = 1907623087 :=
    gammaIterate_chain 5800 100 t58 (by decide)
  have t60 : gammaIterate 16807 2147483647 1 6000 = 1905037902 :=
    gammaIterate_chain 5900 100 t59 (by decide)
  have t61 : gammaIterate 16807 2147483647 1 6100 = 2056937446 :=
    gammaIterate_chain 6000 100 t60 (by decide)
  have t62 : gammaIterate 16807 2147483647 1 6200 = 1382535091 :=
    gammaIterate_chain 6100 100 t61 (by decide)
  have t63 : gammaIterate 16807 2147483647 1 6300 = 1386052200 :=
    gammaIterate_chain 6200 100 t62 (by decide)
  have t64 : gammaIterate 16807 2147483647 1 6400 = 1688829660 :=
    gammaIterate_chain 6300 100 t63 (by decide)
  have t65 : gammaIterate 16807 2147483647 1 6500 = 833256731 :=
    gammaIterate_chain 6400 100 t64 (by decide)
  have t66 : gammaIterate 16807 2147483647 1 6600 = 964972991 :=
    gammaIterate_chain 6500 100 t65 (by decide)
  have t67 : gammaIterate 16807 2147483647 1 6700 = 1368115856 :=
    gammaIterate_chain 6600 100 t66 (by decide)
  have t68 : gammaIterate 16807 2147483647 1 6800 = 141121144 :=
    gammaIterate_chain 6700 100 t67 (by decide)
  have t69 : gammaIterate 16807 2147483647 1 6900 = 776184675 :=
    gammaIterate_chain 6800 100 t68 (by decide)
  have t70 : gammaIterate 16807 2147483647 1 7000 = 1475607902 :=
    gammaIterate_chain 6900 100 t69 (by decide)
  have t71 : gammaIterate 16807 2147483647 1 7100 = 410806569 :=
    gammaIterate_chain 7000 100 t70 (by decide)
  have t72 : gammaIterate 16807 2147483647 1 7200 = 1730012044 :=
    gammaIterate_chain 7100 100 t71 (by decide)
  have t73 : gammaIterate 16807 2147483647 1 7300 = 2057661847 :=
    gammaIterate_chain 7200 100 t72 (by decide)
  have t74 : gammaIterate 16807 2147483647 1 7400 = 1972915771 :=
    gammaIterate_chain 7300 100 t73 (by decide)
  have t75 : gammaIterate 16807 2147483647 1 7500 = 552263588 :=
    gammaIterate_chain 7400 100 t74 (by decide)
  have t76 : gammaIterate 16807 2147483647 1 7600 = 1790024632 :=
    gammaIterate_chain 7500 100 t75 (by decide)
  have t77 : gammaIterate 16807 2147483647 1 7700 = 1890038337 :=
    gammaIterate_chain 7600 100 t76 (by decide)
  have t78 : gammaIterate 16807 2147483647 1 7800 = 903796572 :=
    gammaIterate_chain 7700 100 t77 (by decide)
  have t79 : gammaIterate 16807 2147483647 1 7900 = 1254763205 :=
    gammaIterate_chain 7800 100 t78 (by decide)
  have t80 : gammaIterate 16807 2147483647 1 8000 = 384653807 :=
    gammaIterate_chain 7900 100 t79 (by decide)
  have t81 : gammaIterate 16807 2147483647 1 8100 = 619280568 :=
    gammaIterate_chain 8000 100 t80 (by decide)
  have t82 : gammaIterate 16807 2147483647 1 8200 = 1025785781 :=
    gammaIterate_chain 8100 100 t81 (by decide)
  have t83 : gammaIterate 16807 2147483647 1 8300 = 346164634 :=
    gammaIterate_chain 8200 100 t82 (by decide)
  have t84 : gammaIterate 16807 2147483647 1 8400 = 142217821 :=
    gammaIterate_chain 8300 100 t83 (by decide)
  have t85 : gammaIterate 16807 2147483647 1 8500 = 176661725 :=
    gammaIterate_chain 8400 100 t84 (by decide)
  have t86 : gammaIterate 16807 2147483647 1 8600 = 737145537 :=
    gammaIterate_chain 8500 100 t85 (by decide)
  have t87 : gammaIterate 16807 2147483647 1 8700 = 2072813286 :=
    gammaIterate_chain 8600 100 t86 (by decide)
  have t88 : gammaIterate 16807 2147483647 1 8800 = 209442918 :=
    gammaIterate_chain 8700 100 t87 (by decide)
  have t89 : gammaIterate 16807 2147483647 1 8900 = 875309572 :=
    gammaIterate_chain 8800 100 t88 (by decide)
  have t90 : gammaIterate 16807 2147483647 1 9000 = 365928067 :=
    gammaIterate_chain 8900 100 t89 (by decide)
  have t91 : gammaIterate 16807 2147483647 1 9100 = 1545566092 :=
    gammaIterate_chain 9000 100 t90 (by decide)
  have t92 : gammaIterate 16807 2147483647 1 9200 = 1358705944 :=
    gammaIterate_chain 9100 100 t91 (by decide)
  have t93 : gammaIterate 16807 2147483647 1 9300 = 618209885 :=
    gammaIterate_chain 9200 100 t92 (by decide)
  have t94 : gammaIterate 16807 2147483647 1 9400 = 1126313561 :=
    gammaIterate_chain 9300 100 t93 (by decide)
  have t95 : gammaIterate 16807 2147483647 1 9500 = 1479493348 :=
    gammaIterate_chain 9400 100 t94 (by decide)
  have t96 : gammaIterate 16807 2147483647 1 9600 = 1157076322 :=
    gammaIterate_chain 9500 100 t95 (by decide)
  have t97 : gammaIterate 16807 2147483647 1 9700 = 2079999737 :=
    gammaIterate_chain 9600 100 t96 (by decide)
  have t98 : gammaIterate 16807 2147483647 1 9800 = 317883051 :=
    gammaIterate_chain 9700 100 t97 (by decide)
  have t99 : gammaIterate 16807 2147483647 1 9900 = 1649432515 :=
    gammaIterate_chain 9800 100 t98 (by decide)
  have t100 : gammaIterate 16807 2147483647 1 10000 = 1043618065 :=
    gammaIterate_chain 9900 100 t99 (by decide)
  exact t100
